import Mathlib

/-!
Verification development for the bluesky-scrapper crawl infrastructure.

Shallow embedding of the components under `src/`:

* `src/src/utils/deduplicator.js` — two-tier deduplication (Bloom filter
  pre-check backed by Redis records with a TTL);
* `src/src/core/proxy_manager.js` — Redis-set based proxy health pool,
  followed in the same file by the `CheckpointManager` class
  (`src/core/checkpoint_manager.js`);
* `src/src/core/rate_limiter.js` — per-endpoint throttling;
* `src/unnamed/part_001` — `RelationshipsScraper`, the frontier crawler.

JavaScript run-time state is modelled as explicit state records, Redis as
explicit key/value maps with expiry timestamps, and time as an explicit
`Nat` parameter passed to each operation that reads the clock.
-/

/-! ## Bloom filter (the `bloom-filters` library object used by deduplicator.js)

The library is an external collaborator: its hash family is abstracted as the
`hashFn` field.  Only the interface used by `deduplicator.js` is modelled:
`add`, `has`, `clear` (plus the size/nbHashes parameters it is constructed
with).  The defining property of the structure — `add` sets bits that `has`
then finds, bits are never cleared except by `clear` — is proved below and
holds for every hash family. -/

structure BloomFilter where
  size : Nat
  nbHashes : Nat
  hashFn : Nat → String → Nat
  bits : Nat → Bool

/-- Bit positions probed for `key`: one per hash function, reduced mod `size`. -/
def BloomFilter.positionsList (f : BloomFilter) (key : String) : List Nat :=
  (List.range f.nbHashes).map (fun i => f.hashFn i key % f.size)

/-- Membership probe (`filter.has(h)` in deduplicator.js): all probed bits set. -/
def BloomFilter.has (f : BloomFilter) (key : String) : Bool :=
  (f.positionsList key).all f.bits

/-- Insertion (`filter.add(h)`): sets every probed bit, clears none. -/
def BloomFilter.add (f : BloomFilter) (key : String) : BloomFilter :=
  { f with bits := fun pos => decide (pos ∈ f.positionsList key) || f.bits pos }

/-- Reset (`filter.clear()` inside `Deduplicator.clear`): all bits cleared. -/
def BloomFilter.clearBits (f : BloomFilter) : BloomFilter :=
  { f with bits := fun _ => false }

theorem BloomFilter.positionsList_add (f : BloomFilter) (k k' : String) :
    (f.add k').positionsList k = f.positionsList k := rfl

/-- A Bloom filter has no false negatives for a key just added. -/
theorem BloomFilter.has_add_self (f : BloomFilter) (k : String) :
    (f.add k).has k = true := by
  unfold BloomFilter.has
  rw [BloomFilter.positionsList_add]
  rw [List.all_eq_true]
  intro pos hpos
  simp only [BloomFilter.add] at *
  simp [hpos]

/-- Adding another key never clears a bit: `has` is monotone under `add`. -/
theorem BloomFilter.has_mono_add (f : BloomFilter) (k k' : String)
    (h : f.has k = true) : (f.add k').has k = true := by
  unfold BloomFilter.has at *
  rw [BloomFilter.positionsList_add]
  rw [List.all_eq_true] at *
  intro pos hpos
  have hbit := h pos hpos
  simp only [BloomFilter.add]
  simp [hbit]

/-! ## Redis record store

Keys map to an expiry instant (epoch seconds).  `setEx key ttl` stores the
record with expiry `now + ttl`; `exists` is true while the current time is
before the expiry.  Record payloads (JSON metadata) do not influence any
claim and are elided. -/

def RedisMap : Type := String → Option Nat

/-- Redis `EXISTS`: a key exists while its TTL has not elapsed. -/
def redisExists (r : RedisMap) (key : String) (now : Nat) : Bool :=
  match r key with
  | none => false
  | some expiry => decide (now < expiry)

/-- Redis `SETEX key ttl value`: (re)writes the record, expiry `now + ttl`. -/
def redisSetEx (r : RedisMap) (key : String) (ttl : Nat) (now : Nat) : RedisMap :=
  fun k => if k = key then some (now + ttl) else r k

theorem redisExists_setEx_self (r : RedisMap) (key : String) (ttl now t : Nat) :
    redisExists (redisSetEx r key ttl now) key t = decide (t < now + ttl) := by
  simp [redisExists, redisSetEx]

/-! ## Deduplicator (src/src/utils/deduplicator.js)

State after a successful `initialize()`: one Bloom filter per namespace
(`users`, `posts`, `follows`) plus the Redis connection.  `hashId` stands for
`hashIdentifier` (SHA-256 hex via Node's `crypto`, an external library),
abstracted as a function field.  The `isInitialized` guard throw is
unrepresentable here because only post-initialization states inhabit the
type. -/

structure Deduplicator where
  usersFilter : BloomFilter
  postsFilter : BloomFilter
  followsFilter : BloomFilter
  redis : RedisMap
  hashId : String → String

/-- TTL used by every `markXProcessed` call: `86400 * 7` seconds (7 days). -/
def dedupTTL : Nat := 86400 * 7

/-- Boolean value returned by `isUserDuplicate` (lines 141-164): Bloom filter
first; a negative answer short-circuits to `false`, a positive one is
confirmed against the Redis record `user:<hash>`. -/
def Deduplicator.isUserDuplicateB (d : Deduplicator) (x : String) (now : Nat) : Bool :=
  let h := d.hashId x
  if !(d.usersFilter.has h) then false
  else redisExists d.redis ("user:" ++ h) now

/-- Effect of `markUserProcessed` (lines 233-257): set the Bloom bits, then
`setEx` the record `user:<hash>` with the 7-day TTL. -/
def Deduplicator.markUserProcessed (d : Deduplicator) (x : String) (now : Nat) : Deduplicator :=
  let h := d.hashId x
  { d with
    usersFilter := d.usersFilter.add h
    redis := redisSetEx d.redis ("user:" ++ h) dedupTTL now }

/-- Canonical follow-edge identifier built by both `isFollowDuplicate`
(line 209) and `markFollowProcessed` (line 301):
`relationshipId = followerDid + ":" + followeeDid`. -/
def followKey (followerDid followeeDid : String) : String :=
  followerDid ++ ":" ++ followeeDid

/-- Boolean value returned by `isFollowDuplicate` (lines 202-226). -/
def Deduplicator.isFollowDuplicateB (d : Deduplicator) (follower followee : String)
    (now : Nat) : Bool :=
  let h := d.hashId (followKey follower followee)
  if !(d.followsFilter.has h) then false
  else redisExists d.redis ("follow:" ++ h) now

/-- Effect of `markFollowProcessed` (lines 296-322). -/
def Deduplicator.markFollowProcessed (d : Deduplicator) (follower followee : String)
    (now : Nat) : Deduplicator :=
  let h := d.hashId (followKey follower followee)
  { d with
    followsFilter := d.followsFilter.add h
    redis := redisSetEx d.redis ("follow:" ++ h) dedupTTL now }

/-- Character-wise test that `pre` is an initial segment of `s` (the first
list argument is the candidate initial segment).  Equivalent to
`String.startsWith`, written out so the kernel can evaluate it on literals. -/
def strLeads : List Char → List Char → Bool
  | [], _ => true
  | _ :: _, [] => false
  | c :: cs, d :: ds => decide (c = d) && strLeads cs ds

/-- Glob test for `KEYS (t + ":*")`: the key begins with `t ++ ":"`. -/
def strStartsWith (s pre : String) : Bool :=
  strLeads pre.data s.data

/-- Effect of `clear` (lines 424-452) for one namespace `t`: reset the
in-memory Bloom filter, delete the Redis keys matching the glob `t + ":*"`
(note: the records were written under the singular prefixes `user:`, `post:`,
`follow:`), and delete the persisted filter blob `bloom:<t>`. -/
def Deduplicator.clearOne (d : Deduplicator) (t : String) : Deduplicator :=
  { d with
    usersFilter := if t = "users" then d.usersFilter.clearBits else d.usersFilter
    postsFilter := if t = "posts" then d.postsFilter.clearBits else d.postsFilter
    followsFilter := if t = "follows" then d.followsFilter.clearBits else d.followsFilter
    redis := fun k =>
      if strStartsWith k (t ++ ":") || k = "bloom:" ++ t then none else d.redis k }

/-- Effect of `clear(type)`: `'all'` expands to the three namespaces. -/
def Deduplicator.clear (d : Deduplicator) (type : String) : Deduplicator :=
  let types := if type = "all" then ["users", "posts", "follows"] else [type]
  types.foldl Deduplicator.clearOne d

/-! ## Concrete deduplicator states used by witnesses and counterexamples -/

/-- Small concrete Bloom filter: 8 bits, 2 hash functions, all bits clear. -/
def bloomWit : BloomFilter :=
  { size := 8, nbHashes := 2, hashFn := fun i s => i + s.length, bits := fun _ => false }

/-- Concrete freshly initialized deduplicator state (identity identifier hash). -/
def dedupWit : Deduplicator :=
  { usersFilter := bloomWit, postsFilter := bloomWit, followsFilter := bloomWit,
    redis := fun _ => none, hashId := fun s => s }

/-- C3: after `markProcessed(x)` in the users namespace, `isDuplicate(x)` is
true at any time before the record's TTL has elapsed and false at any time
after it has elapsed, from any prior deduplicator state and with no
re-processing of `x` in between. -/
theorem Deduplicator.isUserDuplicate_ttl_window (d : Deduplicator) (x : String) (t0 t : Nat) :
    (t < t0 + dedupTTL → (d.markUserProcessed x t0).isUserDuplicateB x t = true) ∧
    (t0 + dedupTTL ≤ t → (d.markUserProcessed x t0).isUserDuplicateB x t = false) := by
  constructor
  · intro ht
    simp [Deduplicator.isUserDuplicateB, Deduplicator.markUserProcessed,
      BloomFilter.has_add_self, redisExists_setEx_self, ht]
  · intro ht
    simp [Deduplicator.isUserDuplicateB, Deduplicator.markUserProcessed,
      BloomFilter.has_add_self, redisExists_setEx_self]
    omega

/-- Witness for C3 at a concrete identifier, mark time 0, query times 5 and TTL. -/
theorem Deduplicator.isUserDuplicate_ttl_window_witness :
    ((dedupWit.markUserProcessed "did:plc:w" 0).isUserDuplicateB "did:plc:w" 5 = true) ∧
    ((dedupWit.markUserProcessed "did:plc:w" 0).isUserDuplicateB "did:plc:w" dedupTTL = false) :=
  ⟨(Deduplicator.isUserDuplicate_ttl_window dedupWit "did:plc:w" 0 5).1 (by decide),
   (Deduplicator.isUserDuplicate_ttl_window dedupWit "did:plc:w" 0 dedupTTL).2 (by decide)⟩

/-- C6: violated by the code.  `markUserProcessed` writes the authoritative
record under the key `user:<hash>`, but `clear("users")` deletes the Redis
keys matching `users:*` (plural) while resetting the in-memory `users` Bloom
filter.  After `markUserProcessed("did:plc:alice"); clear("users")` the
record is still live in the store while the filter has no bits set for it:
the filter under-represents the authoritative store. -/
theorem Deduplicator.clear_leaves_live_record_unfiltered :
    redisExists ((dedupWit.markUserProcessed "did:plc:alice" 0).clear "users").redis
        ("user:" ++ "did:plc:alice") 100 = true ∧
    ((dedupWit.markUserProcessed "did:plc:alice" 0).clear "users").usersFilter.has
        "did:plc:alice" = false :=
  ⟨by decide, by decide⟩

/-! ## RelationshipsScraper follow-edge processing (src/unnamed/part_001)

`processRelationships` (lines 391-516) walks a page of discovered
relationships.  For each valid item it builds the dedup key from
`sourceUser.did` and `targetUser.did` only, consults
`deduplicator.isFollowDuplicate`, and on a negative answer pushes the edge
onto the output batch and immediately calls `markFollowProcessed`.  The
`relationshipType` argument (`'follower'` or `'following'`) is stored on the
emitted record but never enters the dedup key.  Items dropped earlier by
validation or the missing-DID guard never reach this code, so a session is
modelled as the list of valid relationship events actually reaching the
dedup check, each carrying the clock value at its iteration. -/

inductive Direction
  | follower
  | following
deriving DecidableEq

structure FollowEvent where
  source : String
  target : String
  direction : Direction
deriving DecidableEq

/-- Key on which `processRelationships` consults the Deduplicator
(part_001 lines 437-441): the direction argument is ignored. -/
def RelationshipsScraper.dedupKeyUsed (sourceDid targetDid : String)
    (_direction : Direction) : String :=
  followKey sourceDid targetDid

/-- Key identifying an edge event in the dedup layer. -/
def edgeKey (e : FollowEvent) : String := followKey e.source e.target

/-- Mutable crawl-output state threaded through `processRelationships`:
the deduplicator, the batch of emitted edges, and the counters
`stats.duplicatesSkipped` / `stats.errors`. -/
structure CrawlOut where
  dedup : Deduplicator
  emitted : List FollowEvent
  duplicatesSkipped : Nat
  errors : Nat

/-- One iteration of the per-relationship loop (part_001 lines 411-477):
a duplicate is counted and skipped; a new edge is pushed onto the batch and
marked processed at the current time. -/
def RelationshipsScraper.processOne (st : CrawlOut) (ev : FollowEvent) (now : Nat) : CrawlOut :=
  if st.dedup.isFollowDuplicateB ev.source ev.target now then
    { st with duplicatesSkipped := st.duplicatesSkipped + 1 }
  else
    { st with
      emitted := st.emitted ++ [ev]
      dedup := st.dedup.markFollowProcessed ev.source ev.target now }

/-- A crawl session: the fold of `processOne` over every discovered
relationship event of the session, in discovery order. -/
def RelationshipsScraper.processFollows (st : CrawlOut) (evs : List (FollowEvent × Nat)) :
    CrawlOut :=
  evs.foldl (fun s p => RelationshipsScraper.processOne s p.1 p.2) st

theorem Deduplicator.markFollowProcessed_hashId (d : Deduplicator) (a b : String) (t : Nat) :
    (d.markFollowProcessed a b t).hashId = d.hashId := rfl

theorem Deduplicator.isFollowDuplicateB_true (d : Deduplicator) (a b : String) (t : Nat)
    (hf : d.followsFilter.has (d.hashId (followKey a b)) = true)
    (hr : redisExists d.redis ("follow:" ++ d.hashId (followKey a b)) t = true) :
    d.isFollowDuplicateB a b t = true := by
  simp [Deduplicator.isFollowDuplicateB, hf, hr]

/-- Session invariant: the identifier hash is the one fixed at
initialization, every emitted edge has its Bloom bits set and a live
authoritative record outlasting the session window, and the emitted batch
has pairwise distinct dedup keys. -/
def EmittedInv (d0 : Deduplicator) (T0 : Nat) (st : CrawlOut) : Prop :=
  st.dedup.hashId = d0.hashId ∧
  (∀ e ∈ st.emitted,
    st.dedup.followsFilter.has (d0.hashId (edgeKey e)) = true ∧
    ∃ exp, st.dedup.redis ("follow:" ++ d0.hashId (edgeKey e)) = some exp ∧
      T0 + dedupTTL ≤ exp) ∧
  List.Pairwise (fun e1 e2 => edgeKey e1 ≠ edgeKey e2) st.emitted

theorem EmittedInv.processOne (d0 : Deduplicator) (T0 : Nat) (st : CrawlOut)
    (ev : FollowEvent) (τ : Nat) (hInv : EmittedInv d0 T0 st)
    (hτ1 : T0 ≤ τ) (hτ2 : τ < T0 + dedupTTL) :
    EmittedInv d0 T0 (RelationshipsScraper.processOne st ev τ) := by
  obtain ⟨hHash, hRec, hPw⟩ := hInv
  by_cases hc : st.dedup.isFollowDuplicateB ev.source ev.target τ = true
  · simpa [RelationshipsScraper.processOne, hc] using ⟨hHash, hRec, hPw⟩
  · rw [Bool.not_eq_true] at hc
    have hNew : ∀ e ∈ st.emitted, edgeKey e ≠ edgeKey ev := by
      intro e he hkeq
      obtain ⟨hf, exp, hrd, hexp⟩ := hRec e he
      have hrex : redisExists st.dedup.redis ("follow:" ++ d0.hashId (edgeKey e)) τ = true := by
        simp [redisExists, hrd]
        omega
      have : st.dedup.isFollowDuplicateB ev.source ev.target τ = true := by
        apply Deduplicator.isFollowDuplicateB_true
        · rw [hHash]
          have : followKey ev.source ev.target = edgeKey e := by
            rw [hkeq]; rfl
          rw [this]; exact hf
        · rw [hHash]
          have : followKey ev.source ev.target = edgeKey e := by
            rw [hkeq]; rfl
          rw [this]; exact hrex
      rw [this] at hc
      exact Bool.true_eq_false.mp hc
    simp only [RelationshipsScraper.processOne, hc, Bool.false_eq_true, if_false]
    refine ⟨hHash, ?_, ?_⟩
    · intro e he
      rw [List.mem_append] at he
      have hKeyEq : ∀ e' : FollowEvent,
          (st.dedup.markFollowProcessed ev.source ev.target τ).followsFilter
            = st.dedup.followsFilter.add (st.dedup.hashId (followKey ev.source ev.target)) :=
        fun _ => rfl
      rcases he with he | he
      · obtain ⟨hf, exp, hrd, hexp⟩ := hRec e he
        refine ⟨?_, ?_⟩
        · rw [hKeyEq e]
          exact BloomFilter.has_mono_add _ _ _ hf
        · show ∃ exp', redisSetEx st.dedup.redis
            ("follow:" ++ st.dedup.hashId (followKey ev.source ev.target)) dedupTTL τ
            ("follow:" ++ d0.hashId (edgeKey e)) = some exp' ∧ T0 + dedupTTL ≤ exp'
          unfold redisSetEx
          by_cases heq : ("follow:" ++ d0.hashId (edgeKey e))
              = ("follow:" ++ st.dedup.hashId (followKey ev.source ev.target))
          · exact ⟨τ + dedupTTL, by simp [heq], by omega⟩
          · exact ⟨exp, by simp [heq, hrd], hexp⟩
      · rw [List.mem_singleton] at he
        subst he
        refine ⟨?_, ⟨τ + dedupTTL, ?_, by omega⟩⟩
        · show (st.dedup.followsFilter.add
              (st.dedup.hashId (followKey e.source e.target))).has
              (d0.hashId (edgeKey e)) = true
          rw [← hHash]
          exact BloomFilter.has_add_self _ _
        · show redisSetEx st.dedup.redis
            ("follow:" ++ st.dedup.hashId (followKey e.source e.target)) dedupTTL τ
            ("follow:" ++ d0.hashId (edgeKey e)) = some (τ + dedupTTL)
          rw [← hHash]
          simp [redisSetEx, edgeKey]
    · rw [List.pairwise_append]
      refine ⟨hPw, List.pairwise_singleton _ _, ?_⟩
      intro a ha b hb
      rw [List.mem_singleton] at hb
      subst hb
      exact hNew a ha

theorem EmittedInv.processFollows (d0 : Deduplicator) (T0 : Nat)
    (evs : List (FollowEvent × Nat)) (st : CrawlOut) (hInv : EmittedInv d0 T0 st)
    (hT : ∀ p ∈ evs, T0 ≤ p.2 ∧ p.2 < T0 + dedupTTL) :
    EmittedInv d0 T0 (RelationshipsScraper.processFollows st evs) := by
  induction evs generalizing st with
  | nil => exact hInv
  | cons p rest ih =>
    have hp := hT p (List.mem_cons_self p rest)
    have hrest : ∀ q ∈ rest, T0 ≤ q.2 ∧ q.2 < T0 + dedupTTL :=
      fun q hq => hT q (List.mem_cons_of_mem p hq)
    exact ih _ (EmittedInv.processOne d0 T0 st p.1 p.2 hInv hp.1 hp.2) hrest

/-- C1: counterexample.  The key on which `processRelationships` consults the
Deduplicator does not distinguish the (source, target, direction) triple:
the two distinct directions of the same (source, target) pair produce the
same dedup key, so the key is not injective on triples. -/
theorem RelationshipsScraper.dedupKey_ignores_direction :
    RelationshipsScraper.dedupKeyUsed "did:plc:a" "did:plc:b" Direction.follower =
      RelationshipsScraper.dedupKeyUsed "did:plc:a" "did:plc:b" Direction.following ∧
    Direction.follower ≠ Direction.following :=
  ⟨rfl, by decide⟩

/-- C1 (amended): in every crawl session whose discovery events all happen
within one dedup-TTL window, the emitted edges have pairwise distinct
(source, target) pairs — so each (source, target, direction) edge is emitted
at most once regardless of how many parents discover it — but the
Deduplicator is consulted on a key built from source and target only. -/
theorem RelationshipsScraper.processFollows_unique_edges (d0 : Deduplicator)
    (evs : List (FollowEvent × Nat)) (T0 : Nat)
    (hT : ∀ p ∈ evs, T0 ≤ p.2 ∧ p.2 < T0 + dedupTTL) :
    List.Pairwise (fun e1 e2 => e1.source ≠ e2.source ∨ e1.target ≠ e2.target)
      (RelationshipsScraper.processFollows ⟨d0, [], 0, 0⟩ evs).emitted := by
  have hInv0 : EmittedInv d0 T0 ⟨d0, [], 0, 0⟩ := by
    refine ⟨rfl, ?_, List.Pairwise.nil⟩
    intro e he
    cases he
  have hInv := EmittedInv.processFollows d0 T0 evs ⟨d0, [], 0, 0⟩ hInv0 hT
  refine hInv.2.2.imp ?_
  intro e1 e2 hkey
  by_contra hcon
  push_neg at hcon
  apply hkey
  unfold edgeKey followKey
  rw [hcon.1, hcon.2]

/-- Concrete session for the C1 witness: the same (source, target) pair is
discovered twice, once per direction, followed by a fresh edge. -/
def evsWit : List (FollowEvent × Nat) :=
  [(⟨"did:plc:a", "did:plc:b", Direction.follower⟩, 10),
   (⟨"did:plc:a", "did:plc:b", Direction.following⟩, 20),
   (⟨"did:plc:b", "did:plc:c", Direction.follower⟩, 30)]

/-- Witness for the amended C1 theorem on a concrete session. -/
theorem RelationshipsScraper.processFollows_unique_edges_witness :
    List.Pairwise (fun e1 e2 => e1.source ≠ e2.source ∨ e1.target ≠ e2.target)
      (RelationshipsScraper.processFollows ⟨dedupWit, [], 0, 0⟩ evsWit).emitted :=
  RelationshipsScraper.processFollows_unique_edges dedupWit evsWit 0 (by decide)

/-! ## Proxy Pool Manager (src/src/core/proxy_manager.js)

Proxy state lives in four Redis sets (`PROXIES`, `HEALTHY_PROXIES`,
`UNHEALTHY_PROXIES`, `RATE_LIMITED`, keys at lines 27-33) plus per-proxy
stat hashes.  Redis sets are modelled as duplicate-free lists of proxy URI
strings; of the stat hash only `consecutiveFailures` (the sole field read
back by control flow) is kept.  The `setTimeout` callback registered by
`markProxyRateLimited` (lines 302-313) is modelled as the separate
`cooldownExpire` transition that the runtime fires after `duration`. -/

/-- Redis `SADD` restricted to one element: no-op when already present. -/
def sAdd (l : List String) (x : String) : List String :=
  if x ∈ l then l else l ++ [x]

/-- Redis `SREM` restricted to one element. -/
def sRem (l : List String) (x : String) : List String :=
  l.filter (fun y => decide (y ≠ x))

/-- Redis `SADD` with a batch of members. -/
def sAddAll (l : List String) (xs : List String) : List String :=
  xs.foldl sAdd l

/-- Redis `SREM` with a batch of members. -/
def sRemAll (l : List String) (xs : List String) : List String :=
  l.filter (fun y => decide (y ∉ xs))

theorem mem_sAdd (l : List String) (x y : String) :
    y ∈ sAdd l x ↔ y = x ∨ y ∈ l := by
  unfold sAdd
  by_cases hx : x ∈ l
  · rw [if_pos hx]
    constructor
    · exact fun h => Or.inr h
    · rintro (rfl | h)
      · exact hx
      · exact h
  · rw [if_neg hx, List.mem_append, List.mem_singleton]
    exact Or.comm

theorem mem_sRem (l : List String) (x y : String) :
    y ∈ sRem l x ↔ y ∈ l ∧ y ≠ x := by
  simp [sRem]

/-- Contents of the four proxy sets plus the per-proxy consecutive-failure
counters read and written by `updateProxyStats`. -/
structure RedisDB where
  proxies : List String
  healthy : List String
  unhealthy : List String
  rateLimited : List String
  consecutiveFailures : String → Nat

/-- The in-process manager: `redisClient` is `none` when `initialize` failed
(fallback mode, line 88) or was never run. -/
structure ProxyManager where
  redisClient : Option RedisDB

/-- SETTINGS.PROXY (settings.js lines 43-49) defines only LIST,
ROTATION_ENABLED, TIMEOUT, MAX_RETRIES and HEALTH_CHECK_INTERVAL; the
threshold `SETTINGS.PROXY.MAX_CONSECUTIVE_FAILURES` read by
`markProxyFailure` (line 268) is absent, i.e. `undefined`. -/
def SETTINGS_PROXY_MAX_CONSECUTIVE_FAILURES : Option Nat := none

/-- JavaScript `a >= b` for a possibly-`undefined` right operand: any
comparison with `undefined` (NaN after coercion) is false. -/
def jsGeUndef (a : Nat) (b : Option Nat) : Bool :=
  match b with
  | none => false
  | some t => decide (t ≤ a)

/-- Set movements of `markProxySuccess` (lines 225-248): add to healthy,
remove from unhealthy and rate-limited; `updateProxyStats('success')` resets
`consecutiveFailures` to 0. -/
def RedisDB.success (db : RedisDB) (p : String) : RedisDB :=
  { db with
    healthy := sAdd db.healthy p
    unhealthy := sRem db.unhealthy p
    rateLimited := sRem db.rateLimited p
    consecutiveFailures := fun q => if q = p then 0 else db.consecutiveFailures q }

/-- Set movements of `markProxyFailure` (lines 253-284): bump the counter;
when the new count reaches `SETTINGS.PROXY.MAX_CONSECUTIVE_FAILURES` move
healthy → unhealthy.  With that setting absent the comparison is with
`undefined` and the move never fires. -/
def RedisDB.failure (db : RedisDB) (p : String) : RedisDB :=
  let cf := db.consecutiveFailures p + 1
  let db1 := { db with
    consecutiveFailures := fun q => if q = p then cf else db.consecutiveFailures q }
  if jsGeUndef cf SETTINGS_PROXY_MAX_CONSECUTIVE_FAILURES then
    { db1 with healthy := sRem db1.healthy p, unhealthy := sAdd db1.unhealthy p }
  else db1

/-- Immediate set movements of `markProxyRateLimited` (lines 296-299):
add to rate-limited, remove from healthy. -/
def RedisDB.rateLimit (db : RedisDB) (p : String) : RedisDB :=
  { db with rateLimited := sAdd db.rateLimited p, healthy := sRem db.healthy p }

/-- Deferred `setTimeout` callback of `markProxyRateLimited` (lines 302-313):
remove from rate-limited, then re-add to healthy unless currently a member of
the unhealthy set.  Membership in the registered `PROXIES` set is not
consulted. -/
def RedisDB.cooldownExpire (db : RedisDB) (p : String) : RedisDB :=
  let db1 := { db with rateLimited := sRem db.rateLimited p }
  if p ∈ db1.unhealthy then db1 else { db1 with healthy := sAdd db1.healthy p }

/-- Set movements of `addProxies` (lines 138-157): add to the proxy list and
mark all as healthy. -/
def RedisDB.addAll (db : RedisDB) (ps : List String) : RedisDB :=
  { db with proxies := sAddAll db.proxies ps, healthy := sAddAll db.healthy ps }

/-- Set movements of `removeProxies` (lines 163-182): remove from all four
sets. -/
def RedisDB.removeAll (db : RedisDB) (ps : List String) : RedisDB :=
  { db with
    proxies := sRemAll db.proxies ps
    healthy := sRemAll db.healthy ps
    unhealthy := sRemAll db.unhealthy ps
    rateLimited := sRemAll db.rateLimited ps }

/-- `getRandomProxy` (lines 187-220): none without a Redis client or with an
empty healthy set; otherwise the member at a random index (the random draw is
the index parameter `k`). -/
def ProxyManager.getRandomProxy (m : ProxyManager) (k : Nat) : Option String :=
  match m.redisClient with
  | none => none
  | some db =>
    if db.healthy.length = 0 then none
    else db.healthy[k % db.healthy.length]?

/-- `markProxySuccess` (lines 225-248); early return without Redis. -/
def ProxyManager.markProxySuccess (m : ProxyManager) (p : String) : ProxyManager :=
  match m.redisClient with
  | none => m
  | some db => ⟨some (db.success p)⟩

/-- `markProxyFailure` (lines 253-284); early return without Redis. -/
def ProxyManager.markProxyFailure (m : ProxyManager) (p : String) : ProxyManager :=
  match m.redisClient with
  | none => m
  | some db => ⟨some (db.failure p)⟩

/-- `markProxyRateLimited` (lines 289-323); early return without Redis.  The
`duration` argument only schedules the deferred callback. -/
def ProxyManager.markProxyRateLimited (m : ProxyManager) (p : String) (_duration : Nat) :
    ProxyManager :=
  match m.redisClient with
  | none => m
  | some db => ⟨some (db.rateLimit p)⟩

/-- Deferred cooldown-expiry callback at manager level. -/
def ProxyManager.cooldownExpire (m : ProxyManager) (p : String) : ProxyManager :=
  match m.redisClient with
  | none => m
  | some db => ⟨some (db.cooldownExpire p)⟩

/-- `addProxies` (lines 138-157) at manager level. -/
def ProxyManager.addProxies (m : ProxyManager) (ps : List String) : ProxyManager :=
  match m.redisClient with
  | none => m
  | some db => ⟨some (db.addAll ps)⟩

/-- `removeProxies` (lines 163-182) at manager level. -/
def ProxyManager.removeProxies (m : ProxyManager) (ps : List String) : ProxyManager :=
  match m.redisClient with
  | none => m
  | some db => ⟨some (db.removeAll ps)⟩

/-- C10: with no backing-store connection (`redisClient = null`),
`getRandomProxy` returns none for every random draw, and the three reporting
operations return without raising and without recording any state change. -/
theorem ProxyManager.no_redis_noop (m : ProxyManager) (h : m.redisClient = none)
    (k : Nat) (p : String) (d : Nat) :
    m.getRandomProxy k = none ∧ m.markProxySuccess p = m ∧
    m.markProxyFailure p = m ∧ m.markProxyRateLimited p d = m := by
  obtain ⟨rc⟩ := m
  simp only [ProxyManager.mk.injEq] at h
  subst h
  exact ⟨rfl, rfl, rfl, rfl⟩

/-- Witness for C10 on the manager in fallback mode. -/
theorem ProxyManager.no_redis_noop_witness :
    (ProxyManager.mk none).getRandomProxy 0 = none ∧
    (ProxyManager.mk none).markProxySuccess "http://h:1" = ProxyManager.mk none ∧
    (ProxyManager.mk none).markProxyFailure "http://h:1" = ProxyManager.mk none ∧
    (ProxyManager.mk none).markProxyRateLimited "http://h:1" 60000 = ProxyManager.mk none :=
  ProxyManager.no_redis_noop ⟨none⟩ rfl 0 "http://h:1" 60000

/-- Empty proxy database: all four sets empty, all counters zero. -/
def emptyDB : RedisDB := ⟨[], [], [], [], fun _ => 0⟩

/-- Trace for C4: register a proxy, rate-limit it, explicitly remove it from
the pool, then let its cooldown timer fire. -/
def c4Trace : ProxyManager :=
  ((((ProxyManager.mk (some emptyDB)).addProxies ["http://p1:8080"]).markProxyRateLimited
      "http://p1:8080" 60000).removeProxies ["http://p1:8080"]).cooldownExpire "http://p1:8080"

/-- Database view of a manager, for stating facts about a concrete trace. -/
def ProxyManager.dbView (m : ProxyManager) : RedisDB :=
  m.redisClient.getD emptyDB

/-- C4: violated by the code.  After `removeProxies` deletes the proxy from
all four sets, the cooldown callback scheduled by `markProxyRateLimited`
still fires, finds the proxy not in the unhealthy set, and re-adds it to the
healthy set without checking the registered pool — so `getRandomProxy` can
return a proxy that was explicitly removed. -/
theorem ProxyManager.removed_proxy_readmitted :
    "http://p1:8080" ∉ c4Trace.dbView.proxies ∧
    "http://p1:8080" ∈ c4Trace.dbView.healthy ∧
    c4Trace.getRandomProxy 0 = some "http://p1:8080" := by
  refine ⟨by decide, by decide, by decide⟩

/-! ## C5: exclusivity of the three health states under report operations -/

/-- One reporting operation of the claim: `reportSuccess`, `reportFailure`,
`reportRateLimited`, plus the deferred cooldown-expiry callback that
`reportRateLimited` schedules. -/
inductive ReportOp
  | success (p : String)
  | failure (p : String)
  | rateLimited (p : String) (duration : Nat)
  | cooldownExpire (p : String)

/-- Dispatch of one report operation on the proxy database. -/
def RedisDB.applyReport (db : RedisDB) : ReportOp → RedisDB
  | .success p => db.success p
  | .failure p => db.failure p
  | .rateLimited p _ => db.rateLimit p
  | .cooldownExpire p => db.cooldownExpire p

/-- A sequence of report operations applied in order. -/
def RedisDB.applyReports (db : RedisDB) (ops : List ReportOp) : RedisDB :=
  ops.foldl RedisDB.applyReport db

/-- Health-state invariant: healthy and rate-limited are disjoint, the
unhealthy set is empty (nothing in this codebase can populate it, since the
failure threshold setting is absent), and every registered proxy is healthy
or rate-limited.  It holds after registration: `addProxies` marks every
added proxy healthy. -/
def HealthStatesInv (db : RedisDB) : Prop :=
  (∀ p ∈ db.healthy, p ∉ db.rateLimited) ∧
  db.unhealthy = [] ∧
  (∀ p ∈ db.proxies, p ∈ db.healthy ∨ p ∈ db.rateLimited)

theorem HealthStatesInv.applyReport (db : RedisDB) (op : ReportOp)
    (h : HealthStatesInv db) : HealthStatesInv (db.applyReport op) := by
  obtain ⟨hdisj, hunh, hcov⟩ := h
  cases op with
  | success p =>
    show HealthStatesInv (db.success p)
    dsimp only [HealthStatesInv, RedisDB.success]
    refine ⟨?_, ?_, ?_⟩
    · intro q hq
      rw [mem_sAdd] at hq
      rw [mem_sRem]
      rcases hq with rfl | hq
      · intro hc
        exact hc.2 rfl
      · intro hc
        exact hdisj q hq hc.1
    · rw [hunh]
      rfl
    · intro q hq
      rcases hcov q hq with hh | hr
      · exact Or.inl ((mem_sAdd _ _ _).mpr (Or.inr hh))
      · by_cases hqp : q = p
        · exact Or.inl ((mem_sAdd _ _ _).mpr (Or.inl hqp))
        · exact Or.inr ((mem_sRem _ _ _).mpr ⟨hr, hqp⟩)
  | failure p =>
    show HealthStatesInv (db.failure p)
    unfold RedisDB.failure
    simp only [jsGeUndef, SETTINGS_PROXY_MAX_CONSECUTIVE_FAILURES, Bool.false_eq_true, if_false]
    exact ⟨hdisj, hunh, hcov⟩
  | rateLimited p _ =>
    show HealthStatesInv (db.rateLimit p)
    dsimp only [HealthStatesInv, RedisDB.rateLimit]
    refine ⟨?_, hunh, ?_⟩
    · intro q hq
      rw [mem_sRem] at hq
      rw [mem_sAdd]
      rintro (rfl | hr)
      · exact hq.2 rfl
      · exact hdisj q hq.1 hr
    · intro q hq
      rcases hcov q hq with hh | hr
      · by_cases hqp : q = p
        · exact Or.inr ((mem_sAdd _ _ _).mpr (Or.inl hqp))
        · exact Or.inl ((mem_sRem _ _ _).mpr ⟨hh, hqp⟩)
      · exact Or.inr ((mem_sAdd _ _ _).mpr (Or.inr hr))
  | cooldownExpire p =>
    show HealthStatesInv (db.cooldownExpire p)
    unfold RedisDB.cooldownExpire
    have hnot : p ∉ db.unhealthy := by
      rw [hunh]
      exact List.not_mem_nil p
    rw [if_neg hnot]
    dsimp only [HealthStatesInv]
    refine ⟨?_, hunh, ?_⟩
    · intro q hq
      rw [mem_sAdd] at hq
      rw [mem_sRem]
      rcases hq with rfl | hq
      · intro hc
        exact hc.2 rfl
      · intro hc
        exact hdisj q hq hc.1
    · intro q hq
      rcases hcov q hq with hh | hr
      · exact Or.inl ((mem_sAdd _ _ _).mpr (Or.inr hh))
      · by_cases hqp : q = p
        · exact Or.inl ((mem_sAdd _ _ _).mpr (Or.inl hqp))
        · exact Or.inr ((mem_sRem _ _ _).mpr ⟨hr, hqp⟩)

theorem RedisDB.applyReport_proxies (db : RedisDB) (op : ReportOp) :
    (db.applyReport op).proxies = db.proxies := by
  cases op with
  | success p => rfl
  | failure p => rfl
  | rateLimited p d => rfl
  | cooldownExpire p =>
    show (db.cooldownExpire p).proxies = db.proxies
    simp only [RedisDB.cooldownExpire]
    split <;> rfl

theorem HealthStatesInv.applyReports (db : RedisDB) (ops : List ReportOp)
    (h : HealthStatesInv db) : HealthStatesInv (db.applyReports ops) := by
  induction ops generalizing db with
  | nil => exact h
  | cons op rest ih => exact ih _ (HealthStatesInv.applyReport db op h)

/-- C5: from any well-formed post-registration state, after any sequence of
reportSuccess / reportFailure / reportRateLimited operations (including the
deferred cooldown callbacks they schedule), every registered proxy is a
member of exactly one of the three status sets. -/
theorem RedisDB.reports_keep_exclusive_status (db : RedisDB) (ops : List ReportOp)
    (hInv : HealthStatesInv db) :
    ∀ p ∈ (db.applyReports ops).proxies,
      (p ∈ (db.applyReports ops).healthy ∧ p ∉ (db.applyReports ops).unhealthy ∧
        p ∉ (db.applyReports ops).rateLimited) ∨
      (p ∉ (db.applyReports ops).healthy ∧ p ∈ (db.applyReports ops).unhealthy ∧
        p ∉ (db.applyReports ops).rateLimited) ∨
      (p ∉ (db.applyReports ops).healthy ∧ p ∉ (db.applyReports ops).unhealthy ∧
        p ∈ (db.applyReports ops).rateLimited) := by
  obtain ⟨hdisj, hunh, hcov⟩ := HealthStatesInv.applyReports db ops hInv
  intro p hp
  have hnu : p ∉ (db.applyReports ops).unhealthy := by
    rw [hunh]
    exact List.not_mem_nil p
  by_cases hh : p ∈ (db.applyReports ops).healthy
  · exact Or.inl ⟨hh, hnu, hdisj p hh⟩
  · rcases hcov p hp with hc | hc
    · exact absurd hc hh
    · exact Or.inr (Or.inr ⟨hh, hnu, hc⟩)

/-- Database with one registered healthy proxy, as left by `addProxies`. -/
def c5DB : RedisDB := RedisDB.mk ["http://p1:8080"] ["http://p1:8080"] [] [] fun _ => 0

/-- Report sequence for the C5 witness: rate-limit, failure, cooldown
expiry, success. -/
def c5Ops : List ReportOp :=
  [ReportOp.rateLimited "http://p1:8080" 60000, ReportOp.failure "http://p1:8080",
   ReportOp.cooldownExpire "http://p1:8080", ReportOp.success "http://p1:8080"]

/-- Witness for C5: the registered proxy is in exactly one status set after
the concrete report sequence. -/
theorem RedisDB.reports_keep_exclusive_status_witness :
    ("http://p1:8080" ∈ (c5DB.applyReports c5Ops).healthy ∧
      "http://p1:8080" ∉ (c5DB.applyReports c5Ops).unhealthy ∧
      "http://p1:8080" ∉ (c5DB.applyReports c5Ops).rateLimited) ∨
    ("http://p1:8080" ∉ (c5DB.applyReports c5Ops).healthy ∧
      "http://p1:8080" ∈ (c5DB.applyReports c5Ops).unhealthy ∧
      "http://p1:8080" ∉ (c5DB.applyReports c5Ops).rateLimited) ∨
    ("http://p1:8080" ∉ (c5DB.applyReports c5Ops).healthy ∧
      "http://p1:8080" ∉ (c5DB.applyReports c5Ops).unhealthy ∧
      "http://p1:8080" ∈ (c5DB.applyReports c5Ops).rateLimited) :=
  RedisDB.reports_keep_exclusive_status c5DB c5Ops
    ⟨by decide, rfl, by decide⟩ "http://p1:8080" (by decide)

/-! ## Checkpoint Manager (src/core/checkpoint_manager.js, appended in
src/src/core/proxy_manager.js lines 644-1159)

A checkpoint file `<id>.json` holds
`{id, scraperType, sessionId, timestamp, counter, state, metadata}`.  The
directory of stored checkpoints is modelled as a list of checkpoints (the
file name is `id ++ ".json"`); `timestamp` is epoch milliseconds and the
formatted date string inside the id is modelled as the printed number. -/

structure Checkpoint where
  id : String
  scraperType : String
  sessionId : String
  timestamp : Nat
  counter : Nat
  state : String
deriving DecidableEq

/-- Constructor state of a `CheckpointManager` (lines 659-731): the scraper
type (`'unknown_scraper'` when the constructor receives no argument), the
session id and the per-session checkpoint counter. -/
structure CheckpointManager where
  scraperType : String
  sessionId : String
  counter : Nat

/-- Methods defined on the `CheckpointManager` class (lines 659-1157):
`saveCheckpoint` is not among them. -/
def CheckpointManager.methodNames : List String :=
  ["createCheckpoint", "loadLatestCheckpoint", "loadCheckpoint", "listCheckpoints",
   "deleteCheckpoint", "createBackup", "cleanupOldCheckpoints", "shouldCreateCheckpoint",
   "getStats", "exportCheckpoints", "importCheckpoints", "cleanup"]

/-- JavaScript dynamic method dispatch under a `try`/`catch` that only logs:
accessing an undefined method and calling it raises a `TypeError`, so when
`name` is not a defined method the state is left unchanged, whatever the
intended action was. -/
def callMethodOr {α : Type} (name : String) (methods : List String) (f : α → α) (a : α) : α :=
  if name ∈ methods then f a else a

/-- `createCheckpoint(state, metadata)` (lines 736-812): bump the counter,
build the id `<scraperType>_<sessionId>_<timestamp>_<counter>`, and append
the new immutable checkpoint file to the directory.  Returns the updated
manager, directory, and the new checkpoint id. -/
def CheckpointManager.createCheckpoint (m : CheckpointManager) (dir : List Checkpoint)
    (nowMs : Nat) (blob : String) : CheckpointManager × List Checkpoint × String :=
  let counter1 := m.counter + 1
  let id := m.scraperType ++ "_" ++ m.sessionId ++ "_" ++ toString nowMs ++ "_" ++
    toString counter1
  ({ m with counter := counter1 },
   dir ++ [⟨id, m.scraperType, m.sessionId, nowMs, counter1, blob⟩],
   id)

/-- `loadCheckpoint(checkpointId)` (lines 872-900): read the file
`<checkpointId>.json` if it exists, else return null. -/
def CheckpointManager.loadCheckpoint (dir : List Checkpoint) (checkpointId : String) :
    Option Checkpoint :=
  dir.find? (fun c => decide (c.id = checkpointId))

/-- `RelationshipsScraper.saveCheckpoint` (part_001 lines 559-583) invokes
`this.checkpointManager.saveCheckpoint('relationships_scraper', data, meta)`
inside a try/catch that only logs errors.  `CheckpointManager` defines no
`saveCheckpoint` method, so the call raises a `TypeError` that the catch
swallows: the stored checkpoint directory is unchanged, whatever the
intended save action `wouldSave` was. -/
def RelationshipsScraper.saveCheckpointOp (wouldSave : List Checkpoint → List Checkpoint)
    (dir : List Checkpoint) : List Checkpoint :=
  callMethodOr "saveCheckpoint" CheckpointManager.methodNames wouldSave dir

/-- Resume lookup performed by `RelationshipsScraper.start` (part_001 lines
94-113): `loadCheckpoint('relationships_scraper')` — a lookup by checkpoint
id whose argument is a scraper type, not an id. -/
def RelationshipsScraper.resumeLookup (dir : List Checkpoint) : Option Checkpoint :=
  CheckpointManager.loadCheckpoint dir "relationships_scraper"

/-- The scraper constructs its manager as `new CheckpointManager()`
(part_001 line 19), so `scraperType` falls back to `'unknown_scraper'`
(line 661). -/
def RelationshipsScraper.checkpointManagerInit (sessionId : String) : CheckpointManager :=
  { scraperType := "unknown_scraper", sessionId := sessionId, counter := 0 }

/-- Directory after the scraper's manager has created two checkpoints. -/
def c2Dir : List Checkpoint :=
  let m0 := RelationshipsScraper.checkpointManagerInit "s1"
  let r1 := CheckpointManager.createCheckpoint m0 [] 1000 "frontierBlob1"
  let r2 := CheckpointManager.createCheckpoint r1.1 r1.2.1 2000 "frontierBlob2"
  r2.2.1

/-- C2: violated by the code.  The scraper's `saveCheckpoint` writes nothing
(its target method does not exist and the TypeError is swallowed), and the
resume path looks up a checkpoint with id `'relationships_scraper'`, which
no checkpoint ever stored by this manager can have — so resumption always
starts from a clean frontier instead of the saved one. -/
theorem RelationshipsScraper.checkpoint_roundtrip_broken :
    RelationshipsScraper.saveCheckpointOp
      (fun dir => dir ++ [⟨"cp", "t", "s", 0, 0, "blob"⟩]) c2Dir = c2Dir ∧
    c2Dir.length = 2 ∧
    RelationshipsScraper.resumeLookup c2Dir = none :=
  ⟨by decide, by decide, by decide⟩

/-- Comparator used by `loadLatestCheckpoint` (line 827):
`(a, b) => new Date(b.timestamp) - new Date(a.timestamp)`, i.e. descending
timestamp order. -/
def ckptGE (a b : Checkpoint) : Prop := b.timestamp ≤ a.timestamp

instance : DecidableRel ckptGE :=
  fun a b => inferInstanceAs (Decidable (b.timestamp ≤ a.timestamp))

instance : IsTotal Checkpoint ckptGE :=
  ⟨fun a b => Nat.le_total b.timestamp a.timestamp⟩

instance : IsTrans Checkpoint ckptGE :=
  ⟨fun _ _ _ h1 h2 => Nat.le_trans h2 h1⟩

/-- Stable descending sort by timestamp (JS `Array.prototype.sort` is
stable; insertion sort realizes the same stable order). -/
def sortByTimestampDesc (l : List Checkpoint) : List Checkpoint :=
  List.insertionSort ckptGE l

theorem sortByTimestampDesc_perm (l : List Checkpoint) :
    (sortByTimestampDesc l).Perm l :=
  List.perm_insertionSort ckptGE l

theorem sortByTimestampDesc_sorted (l : List Checkpoint) :
    List.Sorted ckptGE (sortByTimestampDesc l) :=
  List.sorted_insertionSort ckptGE l

/-- `listCheckpoints` (lines 905-936): the files of the checkpoint directory
whose name starts with the scraper type (file names are `id ++ ".json"`, so
this is a prefix test on the id); checkpoints of other sessions of the same
scraper type are included. -/
def CheckpointManager.listCheckpoints (m : CheckpointManager) (dir : List Checkpoint) :
    List Checkpoint :=
  dir.filter (fun c => strStartsWith c.id m.scraperType)

/-- Default for `SETTINGS.CHECKPOINT.MAX_CHECKPOINT_AGE` (settings.js line
164): 24 hours in milliseconds. -/
def MAX_CHECKPOINT_AGE_DEFAULT : Nat := 86400000

/-- `loadLatestCheckpoint` (lines 817-867): list this scraper type's
checkpoints, sort by timestamp descending, take the first; return null if
there is none or if its age `now - timestamp` exceeds `maxAge`. -/
def CheckpointManager.loadLatestCheckpoint (m : CheckpointManager) (dir : List Checkpoint)
    (nowMs : Nat) (maxAge : Nat) : Option Checkpoint :=
  match sortByTimestampDesc (m.listCheckpoints dir) with
  | [] => none
  | c :: _ => if nowMs - c.timestamp > maxAge then none else some c

/-- Fresh checkpoint of session sA with the higher sequence counter. -/
def ckptA : Checkpoint :=
  ⟨"relationships_scraper_sA_100_5", "relationships_scraper", "sA", 100, 5, "stateA"⟩

/-- Later-written checkpoint of session sB with a lower sequence counter. -/
def ckptB : Checkpoint :=
  ⟨"relationships_scraper_sB_200_2", "relationships_scraper", "sB", 200, 2, "stateB"⟩

/-- Manager for the relationships scraper type, session sB. -/
def ckptMgr : CheckpointManager := ⟨"relationships_scraper", "sB", 2⟩

/-- C7: counterexample.  With checkpoints of two sessions stored, the
checkpoint with the highest sequence number (`counter = 5`) is not returned:
`loadLatestCheckpoint` sorts by timestamp and returns the later-written
checkpoint with counter 2, even though the counter-5 checkpoint is present,
listed, and not stale. -/
theorem CheckpointManager.loadLatest_not_highest_sequence :
    CheckpointManager.loadLatestCheckpoint ckptMgr [ckptA, ckptB] 300
      MAX_CHECKPOINT_AGE_DEFAULT = some ckptB ∧
    ckptB.counter = 2 ∧ ckptA.counter = 5 ∧
    ckptA ∈ ckptMgr.listCheckpoints [ckptA, ckptB] ∧
    300 - ckptA.timestamp ≤ MAX_CHECKPOINT_AGE_DEFAULT :=
  ⟨by decide, rfl, rfl, by decide, by decide⟩

/-- C7 (amended): `loadLatestCheckpoint` returns a stored checkpoint of the
scraper type with maximal timestamp (not necessarily maximal sequence
number), unless its age exceeds the configured maximum, in which case it
returns none and the crawl proceeds as if no checkpoint existed; it also
returns none when no checkpoint of the type is stored. -/
theorem CheckpointManager.loadLatest_max_timestamp (m : CheckpointManager)
    (dir : List Checkpoint) (nowMs maxAge : Nat) :
    (∀ c, m.loadLatestCheckpoint dir nowMs maxAge = some c →
      c ∈ m.listCheckpoints dir ∧
      (∀ c' ∈ m.listCheckpoints dir, c'.timestamp ≤ c.timestamp) ∧
      nowMs - c.timestamp ≤ maxAge) ∧
    (m.loadLatestCheckpoint dir nowMs maxAge = none →
      m.listCheckpoints dir = [] ∨
      ∃ c ∈ m.listCheckpoints dir,
        (∀ c' ∈ m.listCheckpoints dir, c'.timestamp ≤ c.timestamp) ∧
        nowMs - c.timestamp > maxAge) := by
  have hperm := sortByTimestampDesc_perm (m.listCheckpoints dir)
  have hsort := sortByTimestampDesc_sorted (m.listCheckpoints dir)
  cases hs : sortByTimestampDesc (m.listCheckpoints dir) with
  | nil =>
    rw [hs] at hperm
    constructor
    · intro c hc
      rw [CheckpointManager.loadLatestCheckpoint, hs] at hc
      cases hc
    · intro _
      exact Or.inl hperm.symm.eq_nil
  | cons c0 rest =>
    rw [hs] at hperm hsort
    have hmem : c0 ∈ m.listCheckpoints dir :=
      hperm.mem_iff.mp (List.mem_cons_self c0 rest)
    have hmax : ∀ c' ∈ m.listCheckpoints dir, c'.timestamp ≤ c0.timestamp := by
      intro c' hc'
      have := hperm.mem_iff.mpr hc'
      rcases List.mem_cons.mp this with rfl | htail
      · exact Nat.le_refl _
      · exact (List.sorted_cons.mp hsort).1 c' htail
    constructor
    · intro c hc
      rw [CheckpointManager.loadLatestCheckpoint, hs] at hc
      dsimp only at hc
      by_cases hage : nowMs - c0.timestamp > maxAge
      · rw [if_pos hage] at hc
        cases hc
      · rw [if_neg hage] at hc
        injection hc with hc
        subst hc
        exact ⟨hmem, hmax, Nat.not_lt.mp hage⟩
    · intro hc
      rw [CheckpointManager.loadLatestCheckpoint, hs] at hc
      dsimp only at hc
      by_cases hage : nowMs - c0.timestamp > maxAge
      · exact Or.inr ⟨c0, hmem, hmax, hage⟩
      · rw [if_neg hage] at hc
        cases hc

/-- Witness for the amended C7 theorem: a fresh latest checkpoint is
returned and is timestamp-maximal; on an empty directory the result is none. -/
theorem CheckpointManager.loadLatest_max_timestamp_witness :
    (ckptB ∈ ckptMgr.listCheckpoints [ckptA, ckptB] ∧
      (∀ c' ∈ ckptMgr.listCheckpoints [ckptA, ckptB], c'.timestamp ≤ ckptB.timestamp) ∧
      300 - ckptB.timestamp ≤ MAX_CHECKPOINT_AGE_DEFAULT) ∧
    (ckptMgr.listCheckpoints ([] : List Checkpoint) = [] ∨
      ∃ c ∈ ckptMgr.listCheckpoints ([] : List Checkpoint),
        (∀ c' ∈ ckptMgr.listCheckpoints ([] : List Checkpoint),
          c'.timestamp ≤ c.timestamp) ∧
        300 - c.timestamp > MAX_CHECKPOINT_AGE_DEFAULT) :=
  ⟨(CheckpointManager.loadLatest_max_timestamp ckptMgr [ckptA, ckptB] 300
      MAX_CHECKPOINT_AGE_DEFAULT).1 ckptB (by decide),
   (CheckpointManager.loadLatest_max_timestamp ckptMgr [] 300
      MAX_CHECKPOINT_AGE_DEFAULT).2 (by decide)⟩

/-! ## Rate Limiter (src/src/core/rate_limiter.js)

`calculateMinTime` (lines 125-135) computes the Bottleneck `minTime`:
`Math.floor(60000 / requestsPerMinute)`, plus `Math.random() * 0.2 *
baseMinTime` of jitter when `SETTINGS.RATE_LIMITING.RANDOMIZE_DELAYS` is on,
floored at `SETTINGS.SECURITY.MIN_REQUEST_INTERVAL`.  JavaScript numbers are
modelled as exact rationals; the random draw `Math.random() ∈ [0, 1)` is the
explicit parameter `rand`. -/

/-- Default for `SETTINGS.SECURITY.MIN_REQUEST_INTERVAL` (settings.js line
128), in milliseconds. -/
def MIN_REQUEST_INTERVAL_DEFAULT : ℚ := 500

/-- `RateLimiter.calculateMinTime`, with the settings reads
(`RANDOMIZE_DELAYS`, `MIN_REQUEST_INTERVAL`) as parameters. -/
def RateLimiter.calculateMinTime (randomize : Bool) (requestsPerMinute : Nat)
    (rand : ℚ) (minRequestInterval : ℚ) : ℚ :=
  let baseMinTime : Nat := 60000 / requestsPerMinute
  if randomize then
    let jitter : ℚ := rand * (1/5) * (baseMinTime : ℚ)
    max ((baseMinTime : ℚ) + jitter) minRequestInterval
  else
    max ((baseMinTime : ℚ)) minRequestInterval

/-- C9: for every endpoint rate `requestsPerMinute > 0` the computed spacing
is based on `floor(60000 / requestsPerMinute)` ms: without jitter it equals
that base floored at the configured minimum interval (hence equals the base
whenever the base already dominates the minimum); with jitter enabled it is
widened by at most 20% of the base; and in every case the result is at least
the configured minimum request interval. -/
theorem RateLimiter.calculateMinTime_spec (requestsPerMinute : Nat) (rand minI : ℚ)
    (_hrpm : 1 ≤ requestsPerMinute) (h0 : 0 ≤ rand) (h1 : rand < 1) :
    RateLimiter.calculateMinTime false requestsPerMinute rand minI =
      max ((60000 / requestsPerMinute : Nat) : ℚ) minI ∧
    (minI ≤ ((60000 / requestsPerMinute : Nat) : ℚ) →
      RateLimiter.calculateMinTime false requestsPerMinute rand minI =
        ((60000 / requestsPerMinute : Nat) : ℚ)) ∧
    ((60000 / requestsPerMinute : Nat) : ℚ) ≤
      RateLimiter.calculateMinTime true requestsPerMinute rand minI ∧
    RateLimiter.calculateMinTime true requestsPerMinute rand minI ≤
      max (((60000 / requestsPerMinute : Nat) : ℚ) +
        (1/5) * ((60000 / requestsPerMinute : Nat) : ℚ)) minI ∧
    minI ≤ RateLimiter.calculateMinTime false requestsPerMinute rand minI ∧
    minI ≤ RateLimiter.calculateMinTime true requestsPerMinute rand minI := by
  have hb0 : (0 : ℚ) ≤ ((60000 / requestsPerMinute : Nat) : ℚ) := Nat.cast_nonneg _
  have hj0 : (0 : ℚ) ≤ rand * (1/5) * ((60000 / requestsPerMinute : Nat) : ℚ) := by
    apply mul_nonneg (mul_nonneg h0 (by norm_num)) hb0
  have hj5 : rand * (1/5) * ((60000 / requestsPerMinute : Nat) : ℚ) ≤
      (1/5) * ((60000 / requestsPerMinute : Nat) : ℚ) := by
    apply mul_le_mul_of_nonneg_right _ hb0
    calc rand * (1/5) ≤ 1 * (1/5) :=
          mul_le_mul_of_nonneg_right (le_of_lt h1) (by norm_num)
      _ = 1/5 := one_mul _
  refine ⟨rfl, ?_, ?_, ?_, ?_, ?_⟩
  · intro hle
    simp only [RateLimiter.calculateMinTime, Bool.false_eq_true, if_false]
    exact max_eq_left hle
  · simp only [RateLimiter.calculateMinTime, if_true]
    exact le_trans (le_add_of_nonneg_right hj0) (le_max_left _ _)
  · simp only [RateLimiter.calculateMinTime, if_true]
    exact max_le_max (add_le_add_left hj5 _) (le_refl minI)
  · simp only [RateLimiter.calculateMinTime, Bool.false_eq_true, if_false]
    exact le_max_right _ _
  · simp only [RateLimiter.calculateMinTime, if_true]
    exact le_max_right _ _

/-- Witness for C9 at 60 requests/minute, a mid-range random draw, and the
default 500 ms minimum interval. -/
theorem RateLimiter.calculateMinTime_spec_witness :
    RateLimiter.calculateMinTime false 60 (1/2) MIN_REQUEST_INTERVAL_DEFAULT =
      max ((60000 / 60 : Nat) : ℚ) MIN_REQUEST_INTERVAL_DEFAULT ∧
    (MIN_REQUEST_INTERVAL_DEFAULT ≤ ((60000 / 60 : Nat) : ℚ) →
      RateLimiter.calculateMinTime false 60 (1/2) MIN_REQUEST_INTERVAL_DEFAULT =
        ((60000 / 60 : Nat) : ℚ)) ∧
    ((60000 / 60 : Nat) : ℚ) ≤
      RateLimiter.calculateMinTime true 60 (1/2) MIN_REQUEST_INTERVAL_DEFAULT ∧
    RateLimiter.calculateMinTime true 60 (1/2) MIN_REQUEST_INTERVAL_DEFAULT ≤
      max (((60000 / 60 : Nat) : ℚ) + (1/5) * ((60000 / 60 : Nat) : ℚ))
        MIN_REQUEST_INTERVAL_DEFAULT ∧
    MIN_REQUEST_INTERVAL_DEFAULT ≤
      RateLimiter.calculateMinTime false 60 (1/2) MIN_REQUEST_INTERVAL_DEFAULT ∧
    MIN_REQUEST_INTERVAL_DEFAULT ≤
      RateLimiter.calculateMinTime true 60 (1/2) MIN_REQUEST_INTERVAL_DEFAULT :=
  RateLimiter.calculateMinTime_spec 60 (1/2) MIN_REQUEST_INTERVAL_DEFAULT
    (by decide) (by norm_num) (by norm_num)

/-! ## Store-unavailable behavior (C8)

`Deduplicator.initialize` (deduplicator.js lines 49-71) connects to Redis
and on failure logs and rethrows; `RelationshipsScraper.initialize`
(part_001 lines 57-73) awaits it inside a try/catch that rethrows, so the
crawl aborts.  `ProxyManager.initialize` (proxy_manager.js lines 60-91)
catches the same failure and falls back to in-memory mode with
`redisClient = null`.  Inside `processRelationships` each relationship is
handled in its own try/catch (part_001 lines 411-477): a Redis failure
during the dedup check or the mark write increments `stats.errors` and the
loop continues.  The constructed fresh state (Bloom filters sized by the
float formulas of `initializeBloomFilters`) does not affect this claim and
is passed in as `freshState`. -/

inductive InitError
  | storeUnavailable

/-- Outcome of `Deduplicator.initialize` as a function of store
reachability: failure is rethrown. -/
def Deduplicator.initializeOp (redisUp : Bool) (freshState : Deduplicator) :
    Except InitError Deduplicator :=
  if redisUp then Except.ok freshState else Except.error InitError.storeUnavailable

/-- Outcome of `ProxyManager.initialize`: failure is caught and the manager
runs in fallback mode without Redis; no error escapes. -/
def ProxyManager.initializeOp (redisUp : Bool) (freshDb : RedisDB) : ProxyManager :=
  if redisUp then ⟨some freshDb⟩ else ⟨none⟩

/-- Outcome of `RelationshipsScraper.initialize`: the deduplicator failure
propagates through the scraper's catch-and-rethrow. -/
def RelationshipsScraper.initializeOp (redisUp : Bool) (freshState : Deduplicator) :
    Except InitError Deduplicator :=
  match Deduplicator.initializeOp redisUp freshState with
  | Except.ok d => Except.ok d
  | Except.error e => Except.error e

/-- One iteration of the per-relationship loop with the store unreachable:
a Bloom-negative item returns non-duplicate without any store access, is
pushed onto the batch, gets its Bloom bits set, and then the record write
throws (caught: error counted, next-depth enqueue skipped); a Bloom-positive
item throws at the authoritative check (caught: error counted, skipped). -/
def RelationshipsScraper.processOneStoreDown (st : CrawlOut) (ev : FollowEvent) : CrawlOut :=
  let h := st.dedup.hashId (followKey ev.source ev.target)
  if st.dedup.followsFilter.has h then
    { st with errors := st.errors + 1 }
  else
    { st with
      dedup := { st.dedup with followsFilter := st.dedup.followsFilter.add h }
      emitted := st.emitted ++ [ev]
      errors := st.errors + 1 }

/-- The per-relationship loop over a page with the store unreachable. -/
def RelationshipsScraper.processFollowsStoreDown (st : CrawlOut) (evs : List FollowEvent) :
    CrawlOut :=
  evs.foldl RelationshipsScraper.processOneStoreDown st

/-- C8: counterexample.  With the external store unreachable, deduplicator
initialization does not degrade: it raises `StoreUnavailableError`, and the
scraper initialization rethrows it, terminating the crawl. -/
theorem RelationshipsScraper.initialize_raises_when_store_down :
    RelationshipsScraper.initializeOp false dedupWit =
      Except.error InitError.storeUnavailable ∧
    Deduplicator.initializeOp false dedupWit =
      Except.error InitError.storeUnavailable :=
  ⟨rfl, rfl⟩

/-- C8 (amended): only the proxy manager's initialization degrades to
best-effort non-persistent behavior (fallback mode, no error); deduplicator
initialization raises and the crawl aborts; per-item dedup operations inside
the processing loop are caught — each store failure increments the error
counter and the loop runs to completion instead of aborting. -/
theorem StoreDown.degradation_split (freshDb : RedisDB) (st : CrawlOut)
    (evs : List FollowEvent) :
    ProxyManager.initializeOp false freshDb = ProxyManager.mk none ∧
    (∀ d : Deduplicator, RelationshipsScraper.initializeOp false d =
      Except.error InitError.storeUnavailable) ∧
    (RelationshipsScraper.processFollowsStoreDown st evs).errors =
      st.errors + evs.length := by
  refine ⟨rfl, fun d => rfl, ?_⟩
  induction evs generalizing st with
  | nil => rfl
  | cons e rest ih =>
    show (RelationshipsScraper.processFollowsStoreDown
      (RelationshipsScraper.processOneStoreDown st e) rest).errors = st.errors + (rest.length + 1)
    rw [ih]
    have herr : (RelationshipsScraper.processOneStoreDown st e).errors = st.errors + 1 := by
      unfold RelationshipsScraper.processOneStoreDown
      dsimp only
      split <;> rfl
    rw [herr]
    omega
